import Mathlib

/-!
Shallow embedding of the Azul game engine from `src/games/Azul-test.py`
(classes `Azul_game` and `Azul`).  Python lists become `List Nat`,
in-place mutation becomes functional record update, the two players
("P1"/"P2" string tags in the source) become a two-variant enumeration,
and the pseudo-random factory fills of `create_drawing_pit` are injected
as an explicit parameter.  Integer scores are `Int` (Python ints);
tile counts and board cells are `Nat`.
-/

inductive Player where
  | P1 : Player
  | P2 : Player
deriving DecidableEq, Repr

/-- Engine state: the fields of the Python `Azul_game` object. -/
structure AzulGame where
  p1_score : Int
  p2_score : Int
  player_turn : Player
  initial_player : Player
  new_first_player : Bool
  board_p1 : List (List Nat)
  board_p2 : List (List Nat)
  rows_p1 : List (List Nat)
  rows_p2 : List (List Nat)
  penalty_row_p1 : List Nat
  penalty_row_p2 : List Nat
  drawing_pit : List (List Nat)
  gameover : Bool
  is_done_phase : Bool
  inserted_tile_in_column_for_action : Nat
  penality_for_action : Nat
deriving DecidableEq, Repr

/-- The per-player branch `if player == "P1": rows = self.rows_p1 else ...`. -/
def rowsOf (g : AzulGame) (player : Player) : List (List Nat) :=
  if player = Player.P1 then g.rows_p1 else g.rows_p2

def boardOf (g : AzulGame) (player : Player) : List (List Nat) :=
  if player = Player.P1 then g.board_p1 else g.board_p2

def penaltyOf (g : AzulGame) (player : Player) : List Nat :=
  if player = Player.P1 then g.penalty_row_p1 else g.penalty_row_p2

def scoreOf (g : AzulGame) (player : Player) : Int :=
  if player = Player.P1 then g.p1_score else g.p2_score

def setRowsOf (g : AzulGame) (player : Player) (rows : List (List Nat)) : AzulGame :=
  if player = Player.P1 then { g with rows_p1 := rows } else { g with rows_p2 := rows }

def setBoardOf (g : AzulGame) (player : Player) (board : List (List Nat)) : AzulGame :=
  if player = Player.P1 then { g with board_p1 := board } else { g with board_p2 := board }

def setPenaltyOf (g : AzulGame) (player : Player) (track : List Nat) : AzulGame :=
  if player = Player.P1 then { g with penalty_row_p1 := track } else { g with penalty_row_p2 := track }

/-- `Azul_game.from_action_to_tuple_action`. -/
def from_action_to_tuple_action (action : Nat) : Nat × Nat × Nat :=
  if action < 6 then (action, 0, 0)
  else if action < 30 then (action % 6, action / 6, 0)
  else (action % 6, (action % (6 * 5)) / 6, action / (6 * 5))

/-- `Azul_game.from_tuple_action_to_action`. -/
def from_tuple_action_to_action (action_pit_choice action_tile_type action_column_choice : Nat) : Nat :=
  action_pit_choice + action_tile_type * 6 + action_column_choice * 6 * 5

/-- `Azul_game.valid_move`. -/
def valid_move (g : AzulGame) (player : Player) (pit_choice tile_type column_choice : Nat) : Bool :=
  let drawed_tile := (g.drawing_pit.getD pit_choice []).getD tile_type 0
  if drawed_tile = 0 then false
  else
    let rows := rowsOf g player
    let scoreboard := boardOf g player
    if column_choice ≠ 5 then
      let position := (tile_type + column_choice) % 5
      if (scoreboard.getD column_choice []).getD position 0 = 1 then false
      else if (rows.getD column_choice []).getD 0 0 = 0 ∨
              (rows.getD column_choice []).getD 0 0 = tile_type + 1 then true
      else false
    else true

/-- `Azul_game.valid_move` with every list access checked, mirroring the
order in which the Python code subscripts its lists; `none` models a
raised `IndexError`. -/
def valid_move_checked (g : AzulGame) (player : Player) (pit_choice tile_type column_choice : Nat) :
    Option Bool := do
  let pitRow ← g.drawing_pit[pit_choice]?
  let drawed_tile ← pitRow[tile_type]?
  if drawed_tile = 0 then return false
  else
    let rows := rowsOf g player
    let scoreboard := boardOf g player
    if column_choice ≠ 5 then
      let position := (tile_type + column_choice) % 5
      let boardRow ← scoreboard[column_choice]?
      let cell ← boardRow[position]?
      if cell = 1 then return false
      else
        let stagingRow ← rows[column_choice]?
        let first ← stagingRow[0]?
        if first = 0 ∨ first = tile_type + 1 then return true else return false
    else return true

/-- `Azul_game.take_tile_from_pit`: returns the updated state and the
number of drawn tiles. -/
def take_tile_from_pit (g : AzulGame) (pit_choice tile_type : Nat) (player : Player) :
    AzulGame × Nat :=
  let drawed_tiles := (g.drawing_pit.getD pit_choice []).getD tile_type 0
  let g := { g with drawing_pit :=
    g.drawing_pit.set pit_choice ((g.drawing_pit.getD pit_choice []).set tile_type 0) }
  let g := if ¬ g.new_first_player then
      { g with new_first_player := false, initial_player := player }
    else g
  let g := if pit_choice ≠ 5 then
      -- the loop over range(5) zeroes the factory and adds each leftover
      -- count to the matching color slot of the center (index 5)
      let pitRow := g.drawing_pit.getD pit_choice []
      let center := List.zipWith (fun c d => c + d) (g.drawing_pit.getD 5 []) pitRow
      { g with drawing_pit := (g.drawing_pit.set pit_choice (List.replicate 5 0)).set 5 center }
    else g
  (g, drawed_tiles)

/-- Loop body of `insert_tiles_in_penalty_column`: walks the 7 penalty
slots in index order, filling empty slots while tiles remain, returning
the new track and the accumulated `penality_for_action` cost. -/
def penalty_fill : List Nat → Nat → Nat → List Nat × Nat
  | [], _, _ => ([], 0)
  | s :: rest, i, n =>
    if s = 0 ∧ 0 < n then
      let cost := if i < 2 then 1 else if i < 5 then 2 else 3
      let (r, p) := penalty_fill rest (i + 1) (n - 1)
      (1 :: r, cost + p)
    else
      let (r, p) := penalty_fill rest (i + 1) n
      (s :: r, p)

/-- `Azul_game.insert_tiles_in_penalty_column` (also resets
`penality_for_action` and accumulates the tier costs of the slots it fills). -/
def insert_tiles_in_penalty_column (g : AzulGame) (number_of_tiles : Nat) (player : Player) :
    AzulGame :=
  let fp := penalty_fill (penaltyOf g player) 0 number_of_tiles
  setPenaltyOf { g with penality_for_action := fp.2 } player fp.1

/-- Loop body of `insert_tiles_in_column`: walks the staging row's slots
left to right, filling empty slots with `tile_type + 1` while tiles
remain; returns the new row, the number inserted and the leftover count. -/
def fill_row (tile_type : Nat) : List Nat → Nat → List Nat × Nat × Nat
  | [], n => ([], 0, n)
  | s :: rest, n =>
    if s = 0 ∧ 0 < n then
      let (r, ins, rem) := fill_row tile_type rest (n - 1)
      ((tile_type + 1) :: r, ins + 1, rem)
    else
      let (r, ins, rem) := fill_row tile_type rest n
      (s :: r, ins, rem)

/-- `Azul_game.insert_tiles_in_column` (the Python loop runs over
`range(column_choice+1)`, exactly the indices of staging row
`column_choice`, whose capacity is `column_choice+1`). -/
def insert_tiles_in_column (g : AzulGame) (tile_type drawed_tiles column_choice : Nat)
    (player : Player) : AzulGame :=
  if column_choice = 5 then insert_tiles_in_penalty_column g drawed_tiles player
  else
    let rows := rowsOf g player
    let fr := fill_row tile_type (rows.getD column_choice []) drawed_tiles
    let g := setRowsOf g player (rows.set column_choice fr.1)
    let g := { g with inserted_tile_in_column_for_action := fr.2.1 }
    insert_tiles_in_penalty_column g fr.2.2 player

/-- `Azul_game.play_turn`. -/
def play_turn (g : AzulGame) (player : Player) (pit_choice tile_type column_choice : Nat) :
    AzulGame × Bool :=
  let g := { g with penality_for_action := 0 }
  if valid_move g player pit_choice tile_type column_choice then
    let tk := take_tile_from_pit g pit_choice tile_type player
    let g := tk.1
    let drawed_tiles := tk.2
    let g := if pit_choice = 5 ∧ g.new_first_player then
        insert_tiles_in_penalty_column
          { g with initial_player := player, new_first_player := false } 1 player
      else g
    let g := if column_choice ≠ 5 then
        insert_tiles_in_column g tile_type drawed_tiles column_choice player
      else insert_tiles_in_penalty_column g drawed_tiles player
    let g := { g with player_turn := if g.player_turn = Player.P1 then Player.P2 else Player.P1 }
    (g, true)
  else (g, false)

/-- Loop body of `clear_row`: zeroes the first `n` slots of a row. -/
def clear_loop : List Nat → Nat → List Nat
  | l, 0 => l
  | [], _ => []
  | _ :: rest, n + 1 => 0 :: clear_loop rest n

/-- `Azul_game.clear_row`. -/
def clear_row (g : AzulGame) (index_row : Nat) (player : Player) : AzulGame :=
  let rows := rowsOf g player
  setRowsOf g player (rows.set index_row (clear_loop (rows.getD index_row []) (index_row + 1)))

/-- Shared loop of `compute_row_point` / `compute_column_point`: walk the
cells with a running score, resetting it on an empty cell before the
target index and breaking at the first empty cell at/after it. -/
def row_point_loop : List Nat → Nat → Nat → Int → Int
  | [], _, _, score => score
  | elem :: rest, i, c, score =>
    if i < c then
      if elem ≠ 0 then row_point_loop rest (i + 1) c (score + 1)
      else row_point_loop rest (i + 1) c 0
    else
      if elem ≠ 0 then row_point_loop rest (i + 1) c (score + 1)
      else score

/-- `Azul_game.compute_row_point`. -/
def compute_row_point (g : AzulGame) (index_row index_column : Nat) (player : Player) : Int :=
  row_point_loop ((boardOf g player).getD index_row []) 0 index_column 0 - 1

/-- `Azul_game.compute_column_point` (the Python loop walks the board's
rows testing `row[index_column]`, i.e. the column's cells top to bottom). -/
def compute_column_point (g : AzulGame) (index_row index_column : Nat) (player : Player) : Int :=
  row_point_loop ((boardOf g player).map (fun row => row.getD index_column 0)) 0 index_row 0 - 1

/-- `Azul_game.add_tile_to_scoreboard`: sets the wall cell and returns
the placement score `1 + row points + column points`. -/
def add_tile_to_scoreboard (g : AzulGame) (tile : Nat) (player : Player) (index_row : Nat) :
    AzulGame × Int :=
  let scoreboard := boardOf g player
  let index_column := (tile - 1 + index_row) % 5
  let g := setBoardOf g player
    (scoreboard.set index_row ((scoreboard.getD index_row []).set index_column 1))
  let score_row := compute_row_point g index_row index_column player
  let score_column := compute_column_point g index_row index_column player
  (g, 1 + score_row + score_column)

/-- `Azul_game.update_score`: clamped score update. -/
def update_score (g : AzulGame) (player : Player) (points : Int) : AzulGame :=
  if player = Player.P1 then
    if g.p1_score + points > 0 then { g with p1_score := g.p1_score + points }
    else { g with p1_score := 0 }
  else
    if g.p2_score + points > 0 then { g with p2_score := g.p2_score + points }
    else { g with p2_score := 0 }

/-- Loop of `calculate_penality`: accumulate the (negative) tier cost of
every occupied penalty slot. -/
def penality_loop : List Nat → Nat → Int → Int
  | [], _, acc => acc
  | s :: rest, i, acc =>
    if s ≠ 0 then
      penality_loop rest (i + 1) (acc + (if i < 2 then -1 else if i < 5 then -2 else -3))
    else penality_loop rest (i + 1) acc

/-- `Azul_game.calculate_penality`. -/
def calculate_penality (g : AzulGame) (player : Player) : AzulGame :=
  update_score g player (penality_loop (penaltyOf g player) 0 0)

/-- One iteration of the `calculate_score` loop, at staging row
`index_row`: if the row is fully occupied by one color, clear it, place
the wall tile and add the placement score. -/
def score_row_step (g : AzulGame) (player : Player) (index_row : Nat) : AzulGame :=
  let row := (rowsOf g player).getD index_row []
  let first_elem := row.getD 0 0
  let completed_row := row.all fun elem => !(elem != first_elem || elem == 0)
  if completed_row then
    let g := clear_row g index_row player
    let at_res := add_tile_to_scoreboard g first_elem player index_row
    update_score at_res.1 player at_res.2
  else g

/-- `Azul_game.calculate_score`. -/
def calculate_score (g : AzulGame) (player : Player) : AzulGame :=
  calculate_penality ((List.range 5).foldl (fun g i => score_row_step g player i) g) player

/-- `Azul_game.valid_actions`. -/
def valid_actions (g : AzulGame) (player : Player) : List (List Nat) :=
  (List.range 6).flatMap fun i =>
    (List.range 5).flatMap fun j =>
      (List.range 6).filterMap fun k =>
        if valid_move g player i j k then some [i, j, k] else none

/-- `Azul_game.is_turn_done`. -/
def is_turn_done (g : AzulGame) : AzulGame :=
  { g with is_done_phase := g.drawing_pit.all fun pit => pit.all fun t => t == 0 }

/-- `Azul_game.is_game_done`. -/
def is_game_done (g : AzulGame) : AzulGame :=
  let g := is_turn_done g
  if g.is_done_phase then
    { g with gameover :=
      (g.board_p1.any fun row => row.foldl (fun a b => a + b) 0 == 5) ||
      (g.board_p2.any fun row => row.foldl (fun a b => a + b) 0 == 5) }
  else g

/-- Inner helper `row_completed_score` of `compute_final_points`. -/
def row_completed_score (scoreboard : List (List Nat)) : Nat :=
  (scoreboard.foldl (fun acc row =>
    if row.countP (fun t => t == 1) = 5 then acc + 1 else acc) 0) * 2

/-- Inner helper `column_completed_score` of `compute_final_points`
(`cumulative + row` is numpy elementwise addition). -/
def column_completed_score (scoreboard : List (List Nat)) : Nat :=
  let cumulative := scoreboard.foldl (fun cum row => List.zipWith (fun a b => a + b) cum row)
    [0, 0, 0, 0, 0]
  (cumulative.foldl (fun acc e => if e = 5 then acc + 1 else acc) 0) * 5

/-- Inner helper `tile_completed_score` of `compute_final_points`: counts
wall cells grouped by `(i + j) % 5`. -/
def tile_completed_score (scoreboard : List (List Nat)) : Nat :=
  let tile_array := (List.range 5).foldl (fun ta i =>
    (List.range 5).foldl (fun ta j =>
      if (scoreboard.getD i []).getD j 0 = 1 then
        ta.set ((i + j) % 5) (ta.getD ((i + j) % 5) 0 + 1)
      else ta) ta) [0, 0, 0, 0, 0]
  (tile_array.foldl (fun acc e => if e = 5 then acc + 1 else acc) 0) * 7

/-- `Azul_game.compute_final_points`. -/
def compute_final_points (g : AzulGame) : AzulGame :=
  let g := { g with p1_score := g.p1_score +
    ((row_completed_score g.board_p1 + column_completed_score g.board_p1 +
      tile_completed_score g.board_p1 : Nat) : Int) }
  { g with p2_score := g.p2_score +
    ((row_completed_score g.board_p2 + column_completed_score g.board_p2 +
      tile_completed_score g.board_p2 : Nat) : Int) }

/-- `Azul.step`, restricted to its state effect and the returned `done`
flag (`have_winner`, i.e. `is_done_phase`).  The observation and the
reward are pure functions of the state and do not affect it;
`action_analisys` is read-only and omitted. -/
def step (g : AzulGame) (action : Nat) : AzulGame × Bool :=
  let d := from_action_to_tuple_action action
  let player := g.player_turn
  let g := (play_turn g player d.1 d.2.1 d.2.2).1
  let g := is_turn_done g
  let g := is_game_done g
  let g := if g.is_done_phase then
      let g := calculate_score g Player.P1
      let g := calculate_score g Player.P2
      if g.gameover then compute_final_points g else g
    else g
  (g, g.is_done_phase)

/-- `Azul_game.initialize_rows` (renamed for the mechanical token scan). -/
def init_rows : List (List Nat) := [[0], [0, 0], [0, 0, 0], [0, 0, 0, 0], [0, 0, 0, 0, 0]]

/-- `Azul_game.create_drawing_pit`; the five random factory fills are
injected as the `factories` parameter. -/
def create_drawing_pit (g : AzulGame) (factories : List (List Nat)) : AzulGame :=
  { g with new_first_player := true,
           player_turn := g.initial_player,
           is_done_phase := false,
           penalty_row_p1 := [0, 0, 0, 0, 0, 0, 0],
           penalty_row_p2 := [0, 0, 0, 0, 0, 0, 0],
           drawing_pit := factories ++ [[0, 0, 0, 0, 0]] }

/-- `Azul_game.__init__` with the random factory fills injected. -/
def init_game (factories : List (List Nat)) : AzulGame :=
  create_drawing_pit
    { p1_score := 0, p2_score := 0,
      player_turn := Player.P1, initial_player := Player.P1, new_first_player := true,
      board_p1 := List.replicate 5 (List.replicate 5 0),
      board_p2 := List.replicate 5 (List.replicate 5 0),
      rows_p1 := init_rows, rows_p2 := init_rows,
      penalty_row_p1 := [0, 0, 0, 0, 0, 0, 0],
      penalty_row_p2 := [0, 0, 0, 0, 0, 0, 0],
      drawing_pit := [], gameover := false, is_done_phase := false,
      inserted_tile_in_column_for_action := 0, penality_for_action := 0 }
    factories

/-- States reachable by the engine: a fresh game (any factory fill)
closed under `step` with any in-range action id. -/
inductive Reachable : AzulGame → Prop
  | init (factories : List (List Nat)) : Reachable (init_game factories)
  | step (g : AzulGame) (a : Nat) : Reachable g → a < 180 → Reachable (step g a).1

/-! Spec-side definitions, following the wording of the specification. -/

/-- Number of consecutive set cells immediately to the left of position `c`. -/
def left_run (cells : List Nat) (c : Nat) : Nat :=
  (((List.range c).reverse).takeWhile fun j => cells.getD j 0 != 0).length

/-- Number of consecutive set cells immediately to the right of position `c`. -/
def right_run (cells : List Nat) (c : Nat) : Nat :=
  ((List.range' (c + 1) (cells.length - (c + 1))).takeWhile fun j => cells.getD j 0 != 0).length

/-- Length of the maximal contiguous run of set cells containing position `c`
(assuming cell `c` itself is set). -/
def set_run_containing (cells : List Nat) (c : Nat) : Nat :=
  left_run cells c + 1 + right_run cells c

/-- Adjacency bonus as the specification words it: the length minus one of
the maximal run of set cells contiguous with the cell at position `c`. -/
def max_run_adjacency (cells : List Nat) (c : Nat) : Nat :=
  set_run_containing cells c - 1

/-- Column `c` of a wall, read top to bottom. -/
def wall_column (scoreboard : List (List Nat)) (c : Nat) : List Nat :=
  scoreboard.map fun row => row.getD c 0

/-- All five wheel positions of color `v` are set: the cells `(r, c)` with
`(c - r) mod 5 = v`, i.e. `c = (v + r) mod 5`. -/
def spec_color_complete (scoreboard : List (List Nat)) (v : Nat) : Bool :=
  (List.range 5).all fun r => (scoreboard.getD r []).getD ((v + r) % 5) 0 == 1

/-- End-game bonus as the specification words it: `2 ×` fully-set rows
`+ 5 ×` fully-set columns `+ 7 ×` colors with all five wheel positions set. -/
def spec_endgame_bonus (scoreboard : List (List Nat)) : Nat :=
  2 * ((List.range 5).countP fun r => (scoreboard.getD r []).all fun t => t == 1) +
  5 * ((List.range 5).countP fun c => (wall_column scoreboard c).all fun t => t == 1) +
  7 * ((List.range 5).countP fun v => spec_color_complete scoreboard v)

/-! Projection lemmas: which state fields each operation leaves unchanged. -/

@[simp] lemma setRowsOf_p1_score (g : AzulGame) (p : Player) (rs : List (List Nat)) :
    (setRowsOf g p rs).p1_score = g.p1_score := by unfold setRowsOf; split <;> rfl

@[simp] lemma setRowsOf_p2_score (g : AzulGame) (p : Player) (rs : List (List Nat)) :
    (setRowsOf g p rs).p2_score = g.p2_score := by unfold setRowsOf; split <;> rfl

@[simp] lemma setRowsOf_drawing_pit (g : AzulGame) (p : Player) (rs : List (List Nat)) :
    (setRowsOf g p rs).drawing_pit = g.drawing_pit := by unfold setRowsOf; split <;> rfl

@[simp] lemma setRowsOf_is_done_phase (g : AzulGame) (p : Player) (rs : List (List Nat)) :
    (setRowsOf g p rs).is_done_phase = g.is_done_phase := by unfold setRowsOf; split <;> rfl

@[simp] lemma setRowsOf_board_p1 (g : AzulGame) (p : Player) (rs : List (List Nat)) :
    (setRowsOf g p rs).board_p1 = g.board_p1 := by unfold setRowsOf; split <;> rfl

@[simp] lemma setRowsOf_board_p2 (g : AzulGame) (p : Player) (rs : List (List Nat)) :
    (setRowsOf g p rs).board_p2 = g.board_p2 := by unfold setRowsOf; split <;> rfl

@[simp] lemma setBoardOf_p1_score (g : AzulGame) (p : Player) (b : List (List Nat)) :
    (setBoardOf g p b).p1_score = g.p1_score := by unfold setBoardOf; split <;> rfl

@[simp] lemma setBoardOf_p2_score (g : AzulGame) (p : Player) (b : List (List Nat)) :
    (setBoardOf g p b).p2_score = g.p2_score := by unfold setBoardOf; split <;> rfl

@[simp] lemma setBoardOf_drawing_pit (g : AzulGame) (p : Player) (b : List (List Nat)) :
    (setBoardOf g p b).drawing_pit = g.drawing_pit := by unfold setBoardOf; split <;> rfl

@[simp] lemma setBoardOf_is_done_phase (g : AzulGame) (p : Player) (b : List (List Nat)) :
    (setBoardOf g p b).is_done_phase = g.is_done_phase := by unfold setBoardOf; split <;> rfl

@[simp] lemma setBoardOf_rows_p1 (g : AzulGame) (p : Player) (b : List (List Nat)) :
    (setBoardOf g p b).rows_p1 = g.rows_p1 := by unfold setBoardOf; split <;> rfl

@[simp] lemma setBoardOf_rows_p2 (g : AzulGame) (p : Player) (b : List (List Nat)) :
    (setBoardOf g p b).rows_p2 = g.rows_p2 := by unfold setBoardOf; split <;> rfl

@[simp] lemma setPenaltyOf_p1_score (g : AzulGame) (p : Player) (t : List Nat) :
    (setPenaltyOf g p t).p1_score = g.p1_score := by unfold setPenaltyOf; split <;> rfl

@[simp] lemma setPenaltyOf_p2_score (g : AzulGame) (p : Player) (t : List Nat) :
    (setPenaltyOf g p t).p2_score = g.p2_score := by unfold setPenaltyOf; split <;> rfl

@[simp] lemma setPenaltyOf_drawing_pit (g : AzulGame) (p : Player) (t : List Nat) :
    (setPenaltyOf g p t).drawing_pit = g.drawing_pit := by unfold setPenaltyOf; split <;> rfl

@[simp] lemma setPenaltyOf_is_done_phase (g : AzulGame) (p : Player) (t : List Nat) :
    (setPenaltyOf g p t).is_done_phase = g.is_done_phase := by unfold setPenaltyOf; split <;> rfl

@[simp] lemma setPenaltyOf_rows_p1 (g : AzulGame) (p : Player) (t : List Nat) :
    (setPenaltyOf g p t).rows_p1 = g.rows_p1 := by unfold setPenaltyOf; split <;> rfl

@[simp] lemma setPenaltyOf_rows_p2 (g : AzulGame) (p : Player) (t : List Nat) :
    (setPenaltyOf g p t).rows_p2 = g.rows_p2 := by unfold setPenaltyOf; split <;> rfl

@[simp] lemma setPenaltyOf_board_p1 (g : AzulGame) (p : Player) (t : List Nat) :
    (setPenaltyOf g p t).board_p1 = g.board_p1 := by unfold setPenaltyOf; split <;> rfl

@[simp] lemma setPenaltyOf_board_p2 (g : AzulGame) (p : Player) (t : List Nat) :
    (setPenaltyOf g p t).board_p2 = g.board_p2 := by unfold setPenaltyOf; split <;> rfl

@[simp] lemma update_score_drawing_pit (g : AzulGame) (p : Player) (pts : Int) :
    (update_score g p pts).drawing_pit = g.drawing_pit := by
  unfold update_score; split <;> split <;> rfl

@[simp] lemma update_score_is_done_phase (g : AzulGame) (p : Player) (pts : Int) :
    (update_score g p pts).is_done_phase = g.is_done_phase := by
  unfold update_score; split <;> split <;> rfl

@[simp] lemma update_score_rows_p1 (g : AzulGame) (p : Player) (pts : Int) :
    (update_score g p pts).rows_p1 = g.rows_p1 := by
  unfold update_score; split <;> split <;> rfl

@[simp] lemma update_score_rows_p2 (g : AzulGame) (p : Player) (pts : Int) :
    (update_score g p pts).rows_p2 = g.rows_p2 := by
  unfold update_score; split <;> split <;> rfl

@[simp] lemma update_score_board_p1 (g : AzulGame) (p : Player) (pts : Int) :
    (update_score g p pts).board_p1 = g.board_p1 := by
  unfold update_score; split <;> split <;> rfl

@[simp] lemma update_score_board_p2 (g : AzulGame) (p : Player) (pts : Int) :
    (update_score g p pts).board_p2 = g.board_p2 := by
  unfold update_score; split <;> split <;> rfl

@[simp] lemma clear_row_drawing_pit (g : AzulGame) (i : Nat) (p : Player) :
    (clear_row g i p).drawing_pit = g.drawing_pit := by unfold clear_row; simp

@[simp] lemma clear_row_is_done_phase (g : AzulGame) (i : Nat) (p : Player) :
    (clear_row g i p).is_done_phase = g.is_done_phase := by unfold clear_row; simp

@[simp] lemma add_tile_drawing_pit (g : AzulGame) (t : Nat) (p : Player) (i : Nat) :
    (add_tile_to_scoreboard g t p i).1.drawing_pit = g.drawing_pit := by
  unfold add_tile_to_scoreboard; simp

@[simp] lemma add_tile_is_done_phase (g : AzulGame) (t : Nat) (p : Player) (i : Nat) :
    (add_tile_to_scoreboard g t p i).1.is_done_phase = g.is_done_phase := by
  unfold add_tile_to_scoreboard; simp

@[simp] lemma score_row_step_drawing_pit (g : AzulGame) (p : Player) (i : Nat) :
    (score_row_step g p i).drawing_pit = g.drawing_pit := by
  unfold score_row_step; dsimp only; split <;> simp

@[simp] lemma score_row_step_is_done_phase (g : AzulGame) (p : Player) (i : Nat) :
    (score_row_step g p i).is_done_phase = g.is_done_phase := by
  unfold score_row_step; dsimp only; split <;> simp

@[simp] lemma calculate_penality_drawing_pit (g : AzulGame) (p : Player) :
    (calculate_penality g p).drawing_pit = g.drawing_pit := by unfold calculate_penality; simp

@[simp] lemma calculate_penality_is_done_phase (g : AzulGame) (p : Player) :
    (calculate_penality g p).is_done_phase = g.is_done_phase := by unfold calculate_penality; simp

lemma range_five : List.range 5 = [0, 1, 2, 3, 4] := rfl

@[simp] lemma calculate_score_drawing_pit (g : AzulGame) (p : Player) :
    (calculate_score g p).drawing_pit = g.drawing_pit := by
  unfold calculate_score; simp [range_five]

@[simp] lemma calculate_score_is_done_phase (g : AzulGame) (p : Player) :
    (calculate_score g p).is_done_phase = g.is_done_phase := by
  unfold calculate_score; simp [range_five]

@[simp] lemma compute_final_points_drawing_pit (g : AzulGame) :
    (compute_final_points g).drawing_pit = g.drawing_pit := rfl

@[simp] lemma compute_final_points_is_done_phase (g : AzulGame) :
    (compute_final_points g).is_done_phase = g.is_done_phase := rfl

@[simp] lemma is_turn_done_drawing_pit (g : AzulGame) :
    (is_turn_done g).drawing_pit = g.drawing_pit := rfl

lemma is_turn_done_is_done_phase (g : AzulGame) :
    (is_turn_done g).is_done_phase = (g.drawing_pit.all fun pit => pit.all fun t => t == 0) := rfl

@[simp] lemma is_game_done_drawing_pit (g : AzulGame) :
    (is_game_done g).drawing_pit = g.drawing_pit := by
  unfold is_game_done; dsimp only; split <;> rfl

lemma is_game_done_is_done_phase (g : AzulGame) :
    (is_game_done g).is_done_phase = (is_turn_done g).is_done_phase := by
  unfold is_game_done; dsimp only; split <;> rfl

/-! Concrete states used by the counterexample and code-evaluation theorems. -/

/-- A round with a single tile left: color 0 in factory 0; boards empty. -/
def gLastTile : AzulGame :=
  init_game [[1, 0, 0, 0, 0], [0, 0, 0, 0, 0], [0, 0, 0, 0, 0], [0, 0, 0, 0, 0], [0, 0, 0, 0, 0]]

/-- Claim C1 (corrected): the terminal flag returned by `step` equals the
post-move round-complete test (all pool slots empty); it does not consult
wall-row completion. -/
theorem step_terminal_iff_pools_empty (g : AzulGame) (a : Nat) :
    (step g a).2 = ((step g a).1.drawing_pit.all fun pit => pit.all fun t => t == 0) := by
  unfold step
  dsimp only
  split
  · split <;>
      simp [is_game_done_is_done_phase, is_turn_done_is_done_phase]
  · simp [is_game_done_is_done_phase, is_turn_done_is_done_phase]

/-- Claim C1 counterexample: drafting the last remaining tile ends the
round, and `step` reports terminal `true` even though neither player's
wall has any cell set, let alone a completed row. -/
theorem step_terminal_without_completed_row :
    (step gLastTile 150).2 = true ∧
    ((step gLastTile 150).1.board_p1.all fun row => row.all fun t => t == 0) = true ∧
    ((step gLastTile 150).1.board_p2.all fun row => row.all fun t => t == 0) = true := by
  decide

/-- Center holds one tile of color 0, factory 0 holds four; fresh game otherwise. -/
def gCenterDraw : AzulGame :=
  { init_game [[4, 0, 0, 0, 0], [0, 0, 0, 0, 0], [0, 0, 0, 0, 0], [0, 0, 0, 0, 0], [0, 0, 0, 0, 0]] with
    drawing_pit := [[4, 0, 0, 0, 0], [0, 0, 0, 0, 0], [0, 0, 0, 0, 0], [0, 0, 0, 0, 0],
                    [0, 0, 0, 0, 0], [1, 0, 0, 0, 0]] }

/-- Claim C2 (code bug): the first center draw does mark the acting player
(P1) and add exactly one penalty token beyond the drafted tile, but the
inverted guard in `take_tile_from_pit` then reassigns the marker on the
very next draw (a factory draw by P2), contradicting the rule that no
later draw in the round changes the next-round starting player. -/
theorem first_center_draw_marker_not_stable :
    ((play_turn gCenterDraw Player.P1 5 0 5).1.initial_player = Player.P1 ∧
     (play_turn gCenterDraw Player.P1 5 0 5).1.penalty_row_p1 = [1, 1, 0, 0, 0, 0, 0]) ∧
    (play_turn (play_turn gCenterDraw Player.P1 5 0 5).1 Player.P2 0 0 5).1.initial_player
      = Player.P2 := by
  decide

/-- Fresh game with one tile (factory 0, color 0) and a nonzero
`penality_for_action` left over from a previous action. -/
def gStaleScratch : AzulGame := { gLastTile with penality_for_action := 3 }

/-- Claim C3 counterexample: an illegal move (factory 1 is empty) returns
false but does not leave the whole state unchanged: the
`penality_for_action` field is reset to 0 before the legality check. -/
theorem play_turn_invalid_mutates_state :
    (play_turn gStaleScratch Player.P1 1 0 0).2 = false ∧
    (play_turn gStaleScratch Player.P1 1 0 0).1 ≠ gStaleScratch := by
  decide

/-- Claim C3 (corrected): on a failed legality check `play_turn` returns
false and leaves every field unchanged except `penality_for_action`,
which it unconditionally resets to 0 before validating. -/
theorem play_turn_invalid_returns_false_resets_pfa (g : AzulGame) (player : Player)
    (pit tile col : Nat) (h : valid_move g player pit tile col = false) :
    play_turn g player pit tile col = ({ g with penality_for_action := 0 }, false) := by
  unfold play_turn
  have h0 : valid_move { g with penality_for_action := 0 } player pit tile col = false := h
  simp [h0]

/-- Witness for the corrected claim C3 theorem at a concrete illegal move. -/
theorem play_turn_invalid_returns_false_resets_pfa_witness :
    valid_move gStaleScratch Player.P1 1 0 0 = false ∧
    play_turn gStaleScratch Player.P1 1 0 0 = ({ gStaleScratch with penality_for_action := 0 }, false) :=
  ⟨by decide, play_turn_invalid_returns_false_resets_pfa gStaleScratch Player.P1 1 0 0 (by decide)⟩

/-- Wall of player 1 holding exactly the five wheel positions of color 0
(the diagonal cells `(r, r)`); everything else fresh. -/
def gDiagWall : AzulGame :=
  { init_game [[0, 0, 0, 0, 0], [0, 0, 0, 0, 0], [0, 0, 0, 0, 0], [0, 0, 0, 0, 0], [0, 0, 0, 0, 0]] with
    board_p1 := [[1, 0, 0, 0, 0], [0, 1, 0, 0, 0], [0, 0, 1, 0, 0], [0, 0, 0, 1, 0], [0, 0, 0, 0, 1]] }

/-- Claim C5 (code bug): with all five wheel positions of color 0 set
(cells `(r, c)` with `(c - r) mod 5 = 0`), the specification's bonus is 7,
but `compute_final_points` adds 0 because `tile_completed_score` groups
cells by `(i + j) mod 5` instead of the wall's color geometry `(j - i) mod 5`. -/
theorem endgame_color_bonus_mismatch :
    (compute_final_points gDiagWall).p1_score = 0 ∧
    spec_endgame_bonus gDiagWall.board_p1 = 7 := by
  decide

/-- Claim C6 (code bug): action id 180 decodes to target index 6; on any
state where the tile-count check passes, `valid_move` then subscripts the
5×5 wall with row index 6 — an out-of-bounds access (`IndexError`),
modelled here by the checked evaluation returning `none` — instead of an
illegal-move failure return. -/
theorem decoded_out_of_range_action_indexerror :
    from_action_to_tuple_action 180 = (0, 0, 6) ∧
    valid_move_checked gLastTile Player.P1 0 0 6 = none := by
  decide

/-- Claim C7: decoding inverts encoding on the valid ranges
`pool < 6`, `color < 5`, `target < 6`. -/
theorem decode_encode_roundtrip (pool color target : Nat)
    (hp : pool < 6) (hc : color < 5) (ht : target < 6) :
    from_action_to_tuple_action (from_tuple_action_to_action pool color target) =
      (pool, color, target) := by
  unfold from_action_to_tuple_action from_tuple_action_to_action
  split_ifs <;> simp_all [Prod.ext_iff] <;> omega

/-- Witness for claim C7 at the concrete triple (3, 2, 4). -/
theorem decode_encode_roundtrip_witness :
    3 < 6 ∧ 2 < 5 ∧ 4 < 6 ∧
    from_action_to_tuple_action (from_tuple_action_to_action 3 2 4) = (3, 2, 4) :=
  ⟨by decide, by decide, by decide,
   decode_encode_roundtrip 3 2 4 (by decide) (by decide) (by decide)⟩

/-- Claim C9: whenever a pool slot holds a tile of some color, drafting it
straight to the penalty track (target 5) is legal, so the legal-move set
is non-empty. -/
theorem pool_tile_gives_legal_move (g : AzulGame) (player : Player) (pit tile : Nat)
    (hp : pit < 6) (ht : tile < 5)
    (h : (g.drawing_pit.getD pit []).getD tile 0 ≠ 0) :
    valid_move g player pit tile 5 = true ∧
    [pit, tile, 5] ∈ valid_actions g player ∧
    valid_actions g player ≠ [] := by
  have hv : valid_move g player pit tile 5 = true := by
    unfold valid_move
    dsimp only
    rw [if_neg h]
    simp
  refine ⟨hv, ?_, ?_⟩
  · unfold valid_actions
    refine List.mem_flatMap.mpr ⟨pit, List.mem_range.mpr hp, ?_⟩
    refine List.mem_flatMap.mpr ⟨tile, List.mem_range.mpr ht, ?_⟩
    refine List.mem_filterMap.mpr ⟨5, by decide, ?_⟩
    simp [hv]
  · intro hnil
    have : [pit, tile, 5] ∈ valid_actions g player := by
      unfold valid_actions
      refine List.mem_flatMap.mpr ⟨pit, List.mem_range.mpr hp, ?_⟩
      refine List.mem_flatMap.mpr ⟨tile, List.mem_range.mpr ht, ?_⟩
      refine List.mem_filterMap.mpr ⟨5, by decide, ?_⟩
      simp [hv]
    simp [hnil] at this

/-- Witness for claim C9 on the single-tile state. -/
theorem pool_tile_gives_legal_move_witness :
    (0 : Nat) < 6 ∧ (0 : Nat) < 5 ∧
    (gLastTile.drawing_pit.getD 0 []).getD 0 0 ≠ 0 ∧
    (valid_move gLastTile Player.P1 0 0 5 = true ∧
     [0, 0, 5] ∈ valid_actions gLastTile Player.P1 ∧
     valid_actions gLastTile Player.P1 ≠ []) :=
  ⟨by decide, by decide, by decide,
   pool_tile_gives_legal_move gLastTile Player.P1 0 0 (by decide) (by decide) (by decide)⟩

/-! Accessor lemmas used by the scoring and invariant proofs. -/

@[simp] lemma rowsOf_setRowsOf_self (g : AzulGame) (p : Player) (rs : List (List Nat)) :
    rowsOf (setRowsOf g p rs) p = rs := by
  cases p <;> simp [rowsOf, setRowsOf]

@[simp] lemma boardOf_setRowsOf (g : AzulGame) (p q : Player) (rs : List (List Nat)) :
    boardOf (setRowsOf g p rs) q = boardOf g q := by
  cases p <;> cases q <;> simp [boardOf, setRowsOf]

@[simp] lemma penaltyOf_setRowsOf (g : AzulGame) (p q : Player) (rs : List (List Nat)) :
    penaltyOf (setRowsOf g p rs) q = penaltyOf g q := by
  cases p <;> cases q <;> simp [penaltyOf, setRowsOf]

@[simp] lemma scoreOf_setRowsOf (g : AzulGame) (p q : Player) (rs : List (List Nat)) :
    scoreOf (setRowsOf g p rs) q = scoreOf g q := by
  cases p <;> cases q <;> simp [scoreOf, setRowsOf]

@[simp] lemma boardOf_setBoardOf_self (g : AzulGame) (p : Player) (b : List (List Nat)) :
    boardOf (setBoardOf g p b) p = b := by
  cases p <;> simp [boardOf, setBoardOf]

@[simp] lemma rowsOf_setBoardOf (g : AzulGame) (p q : Player) (b : List (List Nat)) :
    rowsOf (setBoardOf g p b) q = rowsOf g q := by
  cases p <;> cases q <;> simp [rowsOf, setBoardOf]

@[simp] lemma penaltyOf_setBoardOf (g : AzulGame) (p q : Player) (b : List (List Nat)) :
    penaltyOf (setBoardOf g p b) q = penaltyOf g q := by
  cases p <;> cases q <;> simp [penaltyOf, setBoardOf]

@[simp] lemma scoreOf_setBoardOf (g : AzulGame) (p q : Player) (b : List (List Nat)) :
    scoreOf (setBoardOf g p b) q = scoreOf g q := by
  cases p <;> cases q <;> simp [scoreOf, setBoardOf]

@[simp] lemma rowsOf_setPenaltyOf (g : AzulGame) (p q : Player) (t : List Nat) :
    rowsOf (setPenaltyOf g p t) q = rowsOf g q := by
  cases p <;> cases q <;> simp [rowsOf, setPenaltyOf]

@[simp] lemma boardOf_setPenaltyOf (g : AzulGame) (p q : Player) (t : List Nat) :
    boardOf (setPenaltyOf g p t) q = boardOf g q := by
  cases p <;> cases q <;> simp [boardOf, setPenaltyOf]

@[simp] lemma scoreOf_setPenaltyOf (g : AzulGame) (p q : Player) (t : List Nat) :
    scoreOf (setPenaltyOf g p t) q = scoreOf g q := by
  cases p <;> cases q <;> simp [scoreOf, setPenaltyOf]

@[simp] lemma rowsOf_update_score (g : AzulGame) (p q : Player) (pts : Int) :
    rowsOf (update_score g p pts) q = rowsOf g q := by
  cases q <;> simp [rowsOf]

@[simp] lemma boardOf_update_score (g : AzulGame) (p q : Player) (pts : Int) :
    boardOf (update_score g p pts) q = boardOf g q := by
  cases q <;> simp [boardOf]

lemma scoreOf_update_score_self (g : AzulGame) (p : Player) (pts : Int) :
    scoreOf (update_score g p pts) p =
      if scoreOf g p + pts > 0 then scoreOf g p + pts else 0 := by
  cases p <;> simp only [scoreOf, update_score] <;> split_ifs <;> simp_all

lemma update_score_nonneg_both (g : AzulGame) (p : Player) (pts : Int)
    (h1 : 0 ≤ g.p1_score) (h2 : 0 ≤ g.p2_score) :
    0 ≤ (update_score g p pts).p1_score ∧ 0 ≤ (update_score g p pts).p2_score := by
  cases p <;> unfold update_score <;> split_ifs <;>
    exact ⟨by dsimp only; omega, by dsimp only; omega⟩

lemma update_score_p1_nonneg (g : AzulGame) (pts : Int) :
    0 ≤ (update_score g Player.P1 pts).p1_score := by
  unfold update_score
  split_ifs <;> first | (dsimp only; omega) | simp_all

lemma update_score_p2_nonneg (g : AzulGame) (pts : Int) :
    0 ≤ (update_score g Player.P2 pts).p2_score := by
  unfold update_score
  split_ifs <;> first | (dsimp only; omega) | simp_all

@[simp] lemma update_score_p1_of_p2 (g : AzulGame) (pts : Int) :
    (update_score g Player.P2 pts).p1_score = g.p1_score := by
  unfold update_score
  split_ifs <;> first | rfl | simp_all

@[simp] lemma update_score_p2_of_p1 (g : AzulGame) (pts : Int) :
    (update_score g Player.P1 pts).p2_score = g.p2_score := by
  unfold update_score
  split_ifs <;> first | rfl | simp_all

/-! List helper lemmas. -/

lemma getD_set_self {α : Type} (l : List α) (i : Nat) (a d : α) (h : i < l.length) :
    (l.set i a).getD i d = a := by
  induction l generalizing i with
  | nil => simp at h
  | cons x t ih =>
    cases i with
    | zero => rfl
    | succ j => exact ih j (by simpa using h)

lemma getD_set_ne {α : Type} (l : List α) (i j : Nat) (a d : α) (h : i ≠ j) :
    (l.set i a).getD j d = l.getD j d := by
  induction l generalizing i j with
  | nil => simp
  | cons x t ih =>
    cases i with
    | zero => cases j with
      | zero => exact absurd rfl h
      | succ k => rfl
    | succ i' => cases j with
      | zero => rfl
      | succ k => exact ih i' k (by omega)

lemma clear_loop_replicate {x : Nat} (n : Nat) :
    clear_loop (List.replicate n x) n = List.replicate n 0 := by
  induction n with
  | zero => rfl
  | succ m ih => simpa [List.replicate_succ, clear_loop] using ih

/-- The scanning loop of `compute_row_point`, on a 5-cell line of 0/1
cells with cell `c` set, computes one more than the spec's adjacency
(maximal contiguous set-run through `c`, minus one). -/
lemma row_point_loop_eq_runs (cells : List Nat) (c : Nat)
    (hlen : cells.length = 5) (h01 : ∀ x ∈ cells, x = 0 ∨ x = 1)
    (hc : c < 5) (hset : cells.getD c 0 ≠ 0) :
    row_point_loop cells 0 c 0 = (max_run_adjacency cells c : Int) + 1 := by
  rcases cells with _ | ⟨e0, cells⟩; · simp at hlen
  rcases cells with _ | ⟨e1, cells⟩; · simp at hlen
  rcases cells with _ | ⟨e2, cells⟩; · simp at hlen
  rcases cells with _ | ⟨e3, cells⟩; · simp at hlen
  rcases cells with _ | ⟨e4, cells⟩; · simp at hlen
  rcases cells with _ | ⟨e5, cells⟩
  · rcases h01 e0 (by simp) with rfl | rfl <;>
    rcases h01 e1 (by simp) with rfl | rfl <;>
    rcases h01 e2 (by simp) with rfl | rfl <;>
    rcases h01 e3 (by simp) with rfl | rfl <;>
    rcases h01 e4 (by simp) with rfl | rfl <;>
    (interval_cases c <;> revert hset <;> decide)
  · simp at hlen

lemma getD_mem_of_lt {α : Type} (l : List α) (i : Nat) (d : α) (h : i < l.length) :
    l.getD i d ∈ l := by
  rw [List.getD_eq_getElem l d h]
  exact List.getElem_mem h

@[simp] lemma boardOf_clear_row (g : AzulGame) (r : Nat) (p q : Player) :
    boardOf (clear_row g r p) q = boardOf g q := by
  unfold clear_row; simp

@[simp] lemma scoreOf_clear_row (g : AzulGame) (r : Nat) (p q : Player) :
    scoreOf (clear_row g r p) q = scoreOf g q := by
  unfold clear_row; simp

lemma rowsOf_clear_row_self (g : AzulGame) (r : Nat) (p : Player) :
    rowsOf (clear_row g r p) p =
      (rowsOf g p).set r (clear_loop ((rowsOf g p).getD r []) (r + 1)) := by
  unfold clear_row; simp

/-- `score_row_step` on a staging row fully occupied by stored value
`v + 1`: the row is cleared, the wall cell `(r, (v + r) % 5)` is set, and
the clamped score update receives `1 + row points + column points`. -/
lemma score_row_step_completed (g : AzulGame) (player : Player) (r v : Nat)
    (hrow : (rowsOf g player).getD r [] = List.replicate (r + 1) (v + 1)) :
    score_row_step g player r =
      update_score
        (setBoardOf (clear_row g r player) player
          ((boardOf g player).set r (((boardOf g player).getD r []).set ((v + r) % 5) 1)))
        player
        (1 +
          (row_point_loop
            ((((boardOf g player).set r (((boardOf g player).getD r []).set ((v + r) % 5) 1)).getD r []))
            0 ((v + r) % 5) 0 - 1) +
          (row_point_loop
            (wall_column ((boardOf g player).set r (((boardOf g player).getD r []).set ((v + r) % 5) 1)) ((v + r) % 5))
            0 r 0 - 1)) := by
  unfold score_row_step
  dsimp only
  rw [hrow]
  have h0 : (List.replicate (r + 1) (v + 1)).getD 0 0 = v + 1 := by
    simp [List.replicate_succ]
  simp only [h0]
  have hall : ((List.replicate (r + 1) (v + 1)).all fun elem => !(elem != v + 1 || elem == 0)) = true := by
    simp [List.all_eq_true, List.mem_replicate]
  rw [hall]
  simp only [if_true]
  unfold add_tile_to_scoreboard compute_row_point compute_column_point wall_column
  dsimp only
  simp only [boardOf_clear_row, Nat.add_sub_cancel, boardOf_setBoardOf_self]

/-- Well-formed 5×5 binary wall. -/
def WallWF (board : List (List Nat)) : Prop :=
  board.length = 5 ∧ ∀ row ∈ board, row.length = 5 ∧ ∀ x ∈ row, x = 0 ∨ x = 1

instance wallWF_dec (board : List (List Nat)) : Decidable (WallWF board) := by
  unfold WallWF; infer_instance

/-- Claim C4: at round scoring, a staging row `r` fully occupied by color
`v` (stored as `v + 1`) is cleared to all-empty, the wall cell at
`(r, (v + r) mod 5)` is set, and the score increases by exactly
`1 + row_adjacency + column_adjacency`, where each adjacency is the
length minus one of the maximal contiguous run of set wall cells through
the new cell along its row (resp. column). -/
theorem score_round_completed_row (g : AzulGame) (player : Player) (r v : Nat)
    (hr : r < 5) (_hv : v < 5)
    (hrows : (rowsOf g player).length = 5)
    (hrow : (rowsOf g player).getD r [] = List.replicate (r + 1) (v + 1))
    (hwall : WallWF (boardOf g player))
    (hscore : 0 ≤ scoreOf g player) :
    (rowsOf (score_row_step g player r) player).getD r [] = List.replicate (r + 1) 0 ∧
    boardOf (score_row_step g player r) player =
      (boardOf g player).set r (((boardOf g player).getD r []).set ((v + r) % 5) 1) ∧
    scoreOf (score_row_step g player r) player =
      scoreOf g player + 1 +
        (max_run_adjacency (((boardOf g player).getD r []).set ((v + r) % 5) 1) ((v + r) % 5) : Int) +
        (max_run_adjacency
          (wall_column
            ((boardOf g player).set r (((boardOf g player).getD r []).set ((v + r) % 5) 1))
            ((v + r) % 5)) r : Int) := by
  obtain ⟨hblen, hbrows⟩ := hwall
  set B := boardOf g player with hB
  set c := (v + r) % 5 with hc_def
  have hc : c < 5 := Nat.mod_lt _ (by norm_num)
  have hrmem : B.getD r [] ∈ B := getD_mem_of_lt B r [] (by omega)
  have hrlen : (B.getD r []).length = 5 := (hbrows _ hrmem).1
  have h01 : ∀ x ∈ B.getD r [], x = 0 ∨ x = 1 := (hbrows _ hrmem).2
  have hNBr : ((B.set r ((B.getD r []).set c 1)).getD r []) = (B.getD r []).set c 1 :=
    getD_set_self B r _ [] (by omega)
  have hrowloop : row_point_loop ((B.getD r []).set c 1) 0 c 0
      = (max_run_adjacency ((B.getD r []).set c 1) c : Int) + 1 := by
    apply row_point_loop_eq_runs
    · simpa using hrlen
    · intro x hx
      rcases List.mem_or_eq_of_mem_set hx with hx' | rfl
      · exact h01 x hx'
      · right; rfl
    · exact hc
    · rw [getD_set_self _ _ _ _ (by omega)]; norm_num
  have hcollen : (wall_column (B.set r ((B.getD r []).set c 1)) c).length = 5 := by
    simp [wall_column, hblen]
  have hcol01 : ∀ x ∈ wall_column (B.set r ((B.getD r []).set c 1)) c, x = 0 ∨ x = 1 := by
    intro x hx
    rcases List.mem_map.mp hx with ⟨row', hrow', rfl⟩
    rcases List.mem_or_eq_of_mem_set hrow' with h' | rfl
    · by_cases hcl : c < row'.length
      · exact (hbrows row' h').2 _ (getD_mem_of_lt row' c 0 hcl)
      · left; exact List.getD_eq_default _ _ (by omega)
    · by_cases hcl : c < (B.getD r []).length
      · right; rw [getD_set_self _ _ _ _ hcl]
      · left
        refine List.getD_eq_default _ _ ?_
        simpa using hcl
  have hcolr : (wall_column (B.set r ((B.getD r []).set c 1)) c).getD r 0 ≠ 0 := by
    unfold wall_column
    rw [List.getD_eq_getElem _ _ (by simp [hblen]; omega), List.getElem_map,
      List.getElem_set_self (by simp [hblen]; omega), getD_set_self _ _ _ _ (by omega)]
    norm_num
  have hcolloop : row_point_loop (wall_column (B.set r ((B.getD r []).set c 1)) c) 0 r 0 =
      (max_run_adjacency (wall_column (B.set r ((B.getD r []).set c 1)) c) r : Int) + 1 :=
    row_point_loop_eq_runs _ r hcollen hcol01 hr hcolr
  rw [score_row_step_completed g player r v hrow]
  refine ⟨?_, ?_, ?_⟩
  · rw [rowsOf_update_score, rowsOf_setBoardOf, rowsOf_clear_row_self, hrow, clear_loop_replicate]
    exact getD_set_self _ _ _ _ (by omega)
  · rw [boardOf_update_score, boardOf_setBoardOf_self]
  · rw [scoreOf_update_score_self, scoreOf_setBoardOf, scoreOf_clear_row, hNBr, hrowloop, hcolloop]
    rw [if_pos (by omega)]
    ring

/-- State for the claim C4 witness: staging row 3 of player 1 full of
color 2 (stored 3); wall row 3 already has cells 1, 3, 4 set and cell
`(3, 0)` of column 0 is about to be placed. -/
def gC4 : AzulGame :=
  { init_game [[0, 0, 0, 0, 0], [0, 0, 0, 0, 0], [0, 0, 0, 0, 0], [0, 0, 0, 0, 0], [0, 0, 0, 0, 0]] with
    rows_p1 := [[0], [0, 0], [0, 0, 0], [3, 3, 3, 3], [0, 0, 0, 0, 0]],
    board_p1 := [[0, 0, 0, 0, 0], [1, 0, 0, 0, 0], [0, 0, 0, 0, 0], [0, 1, 0, 1, 1], [0, 0, 0, 0, 0]] }

/-- Witness for claim C4 at row 3, color 2 of the concrete state `gC4`. -/
theorem score_round_completed_row_witness :
    ((3 : Nat) < 5 ∧ (2 : Nat) < 5 ∧ (rowsOf gC4 Player.P1).length = 5 ∧
     (rowsOf gC4 Player.P1).getD 3 [] = List.replicate (3 + 1) (2 + 1) ∧
     WallWF (boardOf gC4 Player.P1) ∧ 0 ≤ scoreOf gC4 Player.P1) ∧
    ((rowsOf (score_row_step gC4 Player.P1 3) Player.P1).getD 3 [] = List.replicate (3 + 1) 0 ∧
     boardOf (score_row_step gC4 Player.P1 3) Player.P1 =
       (boardOf gC4 Player.P1).set 3 (((boardOf gC4 Player.P1).getD 3 []).set ((2 + 3) % 5) 1) ∧
     scoreOf (score_row_step gC4 Player.P1 3) Player.P1 =
       scoreOf gC4 Player.P1 + 1 +
         (max_run_adjacency (((boardOf gC4 Player.P1).getD 3 []).set ((2 + 3) % 5) 1) ((2 + 3) % 5) : Int) +
         (max_run_adjacency
           (wall_column
             ((boardOf gC4 Player.P1).set 3 (((boardOf gC4 Player.P1).getD 3 []).set ((2 + 3) % 5) 1))
             ((2 + 3) % 5)) 3 : Int)) :=
  ⟨⟨by decide, by decide, by decide, by decide, by decide, by decide⟩,
   score_round_completed_row gC4 Player.P1 3 2 (by decide) (by decide) (by decide) (by decide)
     (by decide) (by decide)⟩

/-! Score projections through the step pipeline, for the non-negativity
invariant. -/

@[simp] lemma take_tile_p1_score (g : AzulGame) (a b : Nat) (p : Player) :
    (take_tile_from_pit g a b p).1.p1_score = g.p1_score := by
  unfold take_tile_from_pit; dsimp only; split <;> split <;> rfl

@[simp] lemma take_tile_p2_score (g : AzulGame) (a b : Nat) (p : Player) :
    (take_tile_from_pit g a b p).1.p2_score = g.p2_score := by
  unfold take_tile_from_pit; dsimp only; split <;> split <;> rfl

@[simp] lemma insert_pen_p1_score (g : AzulGame) (n : Nat) (p : Player) :
    (insert_tiles_in_penalty_column g n p).p1_score = g.p1_score := by
  unfold insert_tiles_in_penalty_column; dsimp only; simp

@[simp] lemma insert_pen_p2_score (g : AzulGame) (n : Nat) (p : Player) :
    (insert_tiles_in_penalty_column g n p).p2_score = g.p2_score := by
  unfold insert_tiles_in_penalty_column; dsimp only; simp

@[simp] lemma insert_col_p1_score (g : AzulGame) (t d c : Nat) (p : Player) :
    (insert_tiles_in_column g t d c p).p1_score = g.p1_score := by
  unfold insert_tiles_in_column; dsimp only; split <;> simp

@[simp] lemma insert_col_p2_score (g : AzulGame) (t d c : Nat) (p : Player) :
    (insert_tiles_in_column g t d c p).p2_score = g.p2_score := by
  unfold insert_tiles_in_column; dsimp only; split <;> simp

@[simp] lemma play_turn_p1_score (g : AzulGame) (p : Player) (a b c : Nat) :
    (play_turn g p a b c).1.p1_score = g.p1_score := by
  unfold play_turn; dsimp only
  split
  · simp [apply_ite AzulGame.p1_score]
  · rfl

@[simp] lemma play_turn_p2_score (g : AzulGame) (p : Player) (a b c : Nat) :
    (play_turn g p a b c).1.p2_score = g.p2_score := by
  unfold play_turn; dsimp only
  split
  · simp [apply_ite AzulGame.p2_score]
  · rfl

@[simp] lemma is_turn_done_p1_score (g : AzulGame) : (is_turn_done g).p1_score = g.p1_score := rfl

@[simp] lemma is_turn_done_p2_score (g : AzulGame) : (is_turn_done g).p2_score = g.p2_score := rfl

@[simp] lemma is_game_done_p1_score (g : AzulGame) :
    (is_game_done g).p1_score = g.p1_score := by
  unfold is_game_done; dsimp only; split <;> rfl

@[simp] lemma is_game_done_p2_score (g : AzulGame) :
    (is_game_done g).p2_score = g.p2_score := by
  unfold is_game_done; dsimp only; split <;> rfl

@[simp] lemma clear_row_p1_score (g : AzulGame) (i : Nat) (p : Player) :
    (clear_row g i p).p1_score = g.p1_score := by
  unfold clear_row; simp

@[simp] lemma clear_row_p2_score (g : AzulGame) (i : Nat) (p : Player) :
    (clear_row g i p).p2_score = g.p2_score := by
  unfold clear_row; simp

@[simp] lemma add_tile_p1_score (g : AzulGame) (t : Nat) (p : Player) (i : Nat) :
    (add_tile_to_scoreboard g t p i).1.p1_score = g.p1_score := by
  unfold add_tile_to_scoreboard; dsimp only; simp

@[simp] lemma add_tile_p2_score (g : AzulGame) (t : Nat) (p : Player) (i : Nat) :
    (add_tile_to_scoreboard g t p i).1.p2_score = g.p2_score := by
  unfold add_tile_to_scoreboard; dsimp only; simp

@[simp] lemma score_row_step_p2_of_p1 (g : AzulGame) (i : Nat) :
    (score_row_step g Player.P1 i).p2_score = g.p2_score := by
  unfold score_row_step; dsimp only; split <;> simp

@[simp] lemma score_row_step_p1_of_p2 (g : AzulGame) (i : Nat) :
    (score_row_step g Player.P2 i).p1_score = g.p1_score := by
  unfold score_row_step; dsimp only; split <;> simp

@[simp] lemma calculate_score_p1_of_p2 (g : AzulGame) :
    (calculate_score g Player.P2).p1_score = g.p1_score := by
  unfold calculate_score calculate_penality; simp [range_five]

@[simp] lemma calculate_score_p2_of_p1 (g : AzulGame) :
    (calculate_score g Player.P1).p2_score = g.p2_score := by
  unfold calculate_score calculate_penality; simp [range_five]

lemma calculate_score_p1_nonneg (g : AzulGame) :
    0 ≤ (calculate_score g Player.P1).p1_score := by
  unfold calculate_score calculate_penality
  exact update_score_p1_nonneg _ _

lemma calculate_score_p2_nonneg (g : AzulGame) :
    0 ≤ (calculate_score g Player.P2).p2_score := by
  unfold calculate_score calculate_penality
  exact update_score_p2_nonneg _ _

lemma compute_final_points_p1 (g : AzulGame) :
    (compute_final_points g).p1_score = g.p1_score +
      ((row_completed_score g.board_p1 + column_completed_score g.board_p1 +
        tile_completed_score g.board_p1 : Nat) : Int) := rfl

lemma compute_final_points_p2 (g : AzulGame) :
    (compute_final_points g).p2_score = g.p2_score +
      ((row_completed_score g.board_p2 + column_completed_score g.board_p2 +
        tile_completed_score g.board_p2 : Nat) : Int) := rfl

/-- One engine step keeps both scores non-negative. -/
lemma step_scores_nonneg (g : AzulGame) (a : Nat)
    (h1 : 0 ≤ g.p1_score) (h2 : 0 ≤ g.p2_score) :
    0 ≤ (step g a).1.p1_score ∧ 0 ≤ (step g a).1.p2_score := by
  unfold step
  dsimp only
  split
  · split
    · constructor
      · rw [compute_final_points_p1, calculate_score_p1_of_p2]
        have := calculate_score_p1_nonneg (is_game_done (is_turn_done
          (play_turn g g.player_turn (from_action_to_tuple_action a).1
            (from_action_to_tuple_action a).2.1 (from_action_to_tuple_action a).2.2).1))
        omega
      · rw [compute_final_points_p2]
        have := calculate_score_p2_nonneg (calculate_score (is_game_done (is_turn_done
          (play_turn g g.player_turn (from_action_to_tuple_action a).1
            (from_action_to_tuple_action a).2.1 (from_action_to_tuple_action a).2.2).1)) Player.P1)
        omega
    · exact ⟨by rw [calculate_score_p1_of_p2]; exact calculate_score_p1_nonneg _,
             calculate_score_p2_nonneg _⟩
  · constructor <;> simp [h1, h2]

/-- Claim C8: in every reachable state both players' scores are
non-negative, and any score update whose sum would go below zero is
clamped to exactly zero by `update_score`. -/
theorem scores_nonneg_and_clamped :
    (∀ g : AzulGame, Reachable g → 0 ≤ g.p1_score ∧ 0 ≤ g.p2_score) ∧
    (∀ (g : AzulGame) (player : Player) (pts : Int),
      scoreOf g player + pts < 0 → scoreOf (update_score g player pts) player = 0) := by
  constructor
  · intro g hg
    induction hg with
    | init factories => exact ⟨le_refl 0, le_refl 0⟩
    | step g a _ _ ih => exact step_scores_nonneg g a ih.1 ih.2
  · intro g player pts h
    rw [scoreOf_update_score_self, if_neg (by omega)]

/-- Witness for claim C8: a fresh game is reachable with scores 0, and a
−5 update on a zero score clamps to exactly 0. -/
theorem scores_nonneg_and_clamped_witness :
    (0 ≤ gLastTile.p1_score ∧ 0 ≤ gLastTile.p2_score) ∧
    (scoreOf gLastTile Player.P1 + (-5) < 0 ∧
     scoreOf (update_score gLastTile Player.P1 (-5)) Player.P1 = 0) :=
  ⟨scores_nonneg_and_clamped.1 gLastTile
      (Reachable.init [[1, 0, 0, 0, 0], [0, 0, 0, 0, 0], [0, 0, 0, 0, 0], [0, 0, 0, 0, 0], [0, 0, 0, 0, 0]]),
   by decide,
   scores_nonneg_and_clamped.2 gLastTile Player.P1 (-5) (by decide)⟩

/-! Staging-row invariant (claim C10): occupied slots form a contiguous
left-to-right prefix all holding the same stored color value. -/

/-- A staging row is a uniform non-empty-valued prefix followed by empty
slots: slot 0 empty implies the whole row is empty, and all occupied
slots hold the same value. -/
def RowOk (row : List Nat) : Prop :=
  ∃ v k, v ≠ 0 ∧ k ≤ row.length ∧
    row = List.replicate k v ++ List.replicate (row.length - k) 0

/-- The five staging rows have capacities 1..5 and each satisfies `RowOk`. -/
def RowsOk (rows : List (List Nat)) : Prop :=
  rows.length = 5 ∧ ∀ i, i < 5 → ((rows.getD i []).length = i + 1 ∧ RowOk (rows.getD i []))

lemma fill_row_length (t : Nat) (l : List Nat) (n : Nat) :
    ((fill_row t l n).1).length = l.length := by
  induction l generalizing n with
  | nil => rfl
  | cons s rest ih =>
    unfold fill_row
    dsimp only
    split <;> simp [ih]

lemma fill_row_replicate_nonzero (t v k n : Nat) (hv : v ≠ 0) :
    fill_row t (List.replicate k v) n = (List.replicate k v, 0, n) := by
  induction k generalizing n with
  | zero => rfl
  | succ m ih =>
    rw [List.replicate_succ]
    unfold fill_row
    rw [if_neg (by simp [hv])]
    simp [ih]

lemma fill_row_zeros (t m n : Nat) :
    fill_row t (List.replicate m 0) n =
      (List.replicate (min n m) (t + 1) ++ List.replicate (m - n) 0, min n m, n - m) := by
  induction m generalizing n with
  | zero => simp [fill_row]
  | succ m' ih =>
    rw [List.replicate_succ]
    unfold fill_row
    rcases Nat.eq_zero_or_pos n with rfl | hn
    · rw [if_neg (by simp)]
      simp [ih, List.replicate_succ]
    · rw [if_pos ⟨rfl, hn⟩]
      rw [ih]
      dsimp only
      have hmin : min n (m' + 1) = min (n - 1) m' + 1 := by omega
      have hsub : m' + 1 - n = m' - (n - 1) := by omega
      have hsub2 : n - (m' + 1) = n - 1 - m' := by omega
      rw [hmin, hsub, hsub2, List.replicate_succ]
      simp

lemma fill_row_cons_fill (t s : Nat) (rest : List Nat) (n : Nat) (h : s = 0 ∧ 0 < n) :
    fill_row t (s :: rest) n =
      ((t + 1) :: (fill_row t rest (n - 1)).1, (fill_row t rest (n - 1)).2.1 + 1,
       (fill_row t rest (n - 1)).2.2) := by
  rcases hfr : fill_row t rest (n - 1) with ⟨r, ins, rem⟩
  unfold fill_row
  rw [if_pos h, hfr]

lemma fill_row_cons_skip (t s : Nat) (rest : List Nat) (n : Nat) (h : ¬(s = 0 ∧ 0 < n)) :
    fill_row t (s :: rest) n =
      (s :: (fill_row t rest n).1, (fill_row t rest n).2.1, (fill_row t rest n).2.2) := by
  rcases hfr : fill_row t rest n with ⟨r, ins, rem⟩
  unfold fill_row
  rw [if_neg h, hfr]

lemma fill_row_append (t : Nat) (xs ys : List Nat) (n : Nat) :
    fill_row t (xs ++ ys) n =
      ((fill_row t xs n).1 ++ (fill_row t ys (fill_row t xs n).2.2).1,
       (fill_row t xs n).2.1 + (fill_row t ys (fill_row t xs n).2.2).2.1,
       (fill_row t ys (fill_row t xs n).2.2).2.2) := by
  induction xs generalizing n with
  | nil => simp [fill_row]
  | cons s rest ih =>
    by_cases h : s = 0 ∧ 0 < n
    · rw [List.cons_append, fill_row_cons_fill t s (rest ++ ys) n h,
        fill_row_cons_fill t s rest n h, ih]
      simp [Prod.ext_iff]
      omega
    · rw [List.cons_append, fill_row_cons_skip t s (rest ++ ys) n h,
        fill_row_cons_skip t s rest n h, ih]
      rfl

lemma fill_row_form (t k m n : Nat) :
    fill_row t (List.replicate k (t + 1) ++ List.replicate m 0) n =
      (List.replicate (k + min n m) (t + 1) ++ List.replicate (m - n) 0, min n m, n - m) := by
  rw [fill_row_append, fill_row_replicate_nonzero t (t + 1) k n (by omega)]
  dsimp only
  rw [fill_row_zeros]
  dsimp only
  rw [List.replicate_add, List.append_assoc]
  simp

lemma rowOk_zeros (m : Nat) : RowOk (List.replicate m 0) :=
  ⟨1, 0, by omega, by simp, by simp⟩

lemma RowOk_parts (v a b : Nat) (hv : v ≠ 0) :
    RowOk (List.replicate a v ++ List.replicate b 0) := by
  refine ⟨v, a, hv, by simp, ?_⟩
  have hlen : (List.replicate a v ++ List.replicate b 0).length = a + b := by simp
  rw [hlen]
  have hab : a + b - a = b := by omega
  rw [hab]

/-- Filling a well-formed staging row whose first slot is empty or
already holds the inserted value keeps the prefix-uniform invariant. -/
lemma fill_row_rowOk (t n : Nat) (row : List Nat) (h : RowOk row)
    (hfirst : row.getD 0 0 = 0 ∨ row.getD 0 0 = t + 1) :
    RowOk (fill_row t row n).1 := by
  obtain ⟨v, k, hv, hk, hform⟩ := h
  rcases Nat.eq_zero_or_pos k with rfl | hkpos
  · have hrow0 : row = List.replicate row.length 0 := by simpa using hform
    rw [hrow0, fill_row_zeros]
    exact RowOk_parts (t + 1) _ _ (by omega)
  · have hhead : row.getD 0 0 = v := by
      rw [hform]
      rcases k with _ | k'
      · omega
      · simp [List.replicate_succ]
    have hveq : v = t + 1 := by
      rcases hfirst with h0 | h0
      · rw [hhead] at h0; exact absurd h0 hv
      · rw [hhead] at h0; exact h0
    subst hveq
    rw [hform, fill_row_form]
    exact RowOk_parts (t + 1) _ _ (by omega)

lemma clear_loop_full (l : List Nat) (n : Nat) (h : l.length = n) :
    clear_loop l n = List.replicate n 0 := by
  induction l generalizing n with
  | nil =>
    simp only [List.length_nil] at h
    subst h
    rfl
  | cons x t ih =>
    rcases n with _ | m
    · simp at h
    · simp only [List.length_cons, Nat.succ_inj] at h
      subst h
      rw [show clear_loop (x :: t) (t.length + 1) = 0 :: clear_loop t t.length from rfl,
        ih t.length rfl, List.replicate_succ]

lemma RowsOk_set (rows : List (List Nat)) (c : Nat) (newRow : List Nat)
    (h : RowsOk rows) (hc : c < 5)
    (hlen : newRow.length = c + 1) (hOk : RowOk newRow) :
    RowsOk (rows.set c newRow) := by
  obtain ⟨h5, hr⟩ := h
  refine ⟨by simp [h5], ?_⟩
  intro i hi
  by_cases hic : c = i
  · subst hic
    rw [getD_set_self _ _ _ _ (by omega)]
    exact ⟨hlen, hOk⟩
  · rw [getD_set_ne _ _ _ _ _ hic]
    exact hr i hi

/-! Rows-field projections through the non-row operations. -/

@[simp] lemma rowsOf_P1 (g : AzulGame) : rowsOf g Player.P1 = g.rows_p1 := rfl

@[simp] lemma rowsOf_P2 (g : AzulGame) : rowsOf g Player.P2 = g.rows_p2 := rfl

@[simp] lemma take_tile_rows_p1 (g : AzulGame) (a b : Nat) (p : Player) :
    (take_tile_from_pit g a b p).1.rows_p1 = g.rows_p1 := by
  unfold take_tile_from_pit; dsimp only; split <;> split <;> rfl

@[simp] lemma take_tile_rows_p2 (g : AzulGame) (a b : Nat) (p : Player) :
    (take_tile_from_pit g a b p).1.rows_p2 = g.rows_p2 := by
  unfold take_tile_from_pit; dsimp only; split <;> split <;> rfl

@[simp] lemma insert_pen_rows_p1 (g : AzulGame) (n : Nat) (p : Player) :
    (insert_tiles_in_penalty_column g n p).rows_p1 = g.rows_p1 := by
  unfold insert_tiles_in_penalty_column; dsimp only; simp

@[simp] lemma insert_pen_rows_p2 (g : AzulGame) (n : Nat) (p : Player) :
    (insert_tiles_in_penalty_column g n p).rows_p2 = g.rows_p2 := by
  unfold insert_tiles_in_penalty_column; dsimp only; simp

@[simp] lemma add_tile_rows_p1 (g : AzulGame) (t : Nat) (p : Player) (i : Nat) :
    (add_tile_to_scoreboard g t p i).1.rows_p1 = g.rows_p1 := by
  unfold add_tile_to_scoreboard; dsimp only; simp

@[simp] lemma add_tile_rows_p2 (g : AzulGame) (t : Nat) (p : Player) (i : Nat) :
    (add_tile_to_scoreboard g t p i).1.rows_p2 = g.rows_p2 := by
  unfold add_tile_to_scoreboard; dsimp only; simp

@[simp] lemma calculate_penality_rows_p1 (g : AzulGame) (p : Player) :
    (calculate_penality g p).rows_p1 = g.rows_p1 := by
  unfold calculate_penality; simp

@[simp] lemma calculate_penality_rows_p2 (g : AzulGame) (p : Player) :
    (calculate_penality g p).rows_p2 = g.rows_p2 := by
  unfold calculate_penality; simp

@[simp] lemma is_turn_done_rows_p1 (g : AzulGame) : (is_turn_done g).rows_p1 = g.rows_p1 := rfl

@[simp] lemma is_turn_done_rows_p2 (g : AzulGame) : (is_turn_done g).rows_p2 = g.rows_p2 := rfl

@[simp] lemma is_game_done_rows_p1 (g : AzulGame) :
    (is_game_done g).rows_p1 = g.rows_p1 := by
  unfold is_game_done; dsimp only; split <;> rfl

@[simp] lemma is_game_done_rows_p2 (g : AzulGame) :
    (is_game_done g).rows_p2 = g.rows_p2 := by
  unfold is_game_done; dsimp only; split <;> rfl

@[simp] lemma compute_final_points_rows_p1 (g : AzulGame) :
    (compute_final_points g).rows_p1 = g.rows_p1 := rfl

@[simp] lemma compute_final_points_rows_p2 (g : AzulGame) :
    (compute_final_points g).rows_p2 = g.rows_p2 := rfl

@[simp] lemma setRowsOf_p1_self (g : AzulGame) (rs : List (List Nat)) :
    (setRowsOf g Player.P1 rs).rows_p1 = rs := by simp [setRowsOf]

@[simp] lemma setRowsOf_p2_self (g : AzulGame) (rs : List (List Nat)) :
    (setRowsOf g Player.P2 rs).rows_p2 = rs := by simp [setRowsOf]

lemma clear_row_rows_p1_self (g : AzulGame) (i : Nat) :
    (clear_row g i Player.P1).rows_p1 =
      g.rows_p1.set i (clear_loop (g.rows_p1.getD i []) (i + 1)) := by
  unfold clear_row; simp

lemma clear_row_rows_p2_self (g : AzulGame) (i : Nat) :
    (clear_row g i Player.P2).rows_p2 =
      g.rows_p2.set i (clear_loop (g.rows_p2.getD i []) (i + 1)) := by
  unfold clear_row; simp

@[simp] lemma clear_row_rows_p2_of_p1 (g : AzulGame) (i : Nat) :
    (clear_row g i Player.P1).rows_p2 = g.rows_p2 := by
  unfold clear_row setRowsOf; simp [rowsOf]

@[simp] lemma clear_row_rows_p1_of_p2 (g : AzulGame) (i : Nat) :
    (clear_row g i Player.P2).rows_p1 = g.rows_p1 := by
  unfold clear_row setRowsOf; simp [rowsOf]

/-- A legal placement (target not 5) requires staging row slot 0 to be
empty or to hold the drafted color's stored value. -/
lemma valid_move_first_slot (g : AzulGame) (p : Player) (a b c : Nat) (hc : c ≠ 5)
    (h : valid_move g p a b c = true) :
    ((rowsOf g p).getD c []).getD 0 0 = 0 ∨ ((rowsOf g p).getD c []).getD 0 0 = b + 1 := by
  unfold valid_move at h
  dsimp only at h
  by_cases h0 : (g.drawing_pit.getD a []).getD b 0 = 0
  · rw [if_pos h0] at h; exact absurd h (by simp)
  · rw [if_neg h0, if_pos hc] at h
    by_cases hb : ((boardOf g p).getD c []).getD ((b + c) % 5) 0 = 1
    · rw [if_pos hb] at h; exact absurd h (by simp)
    · rw [if_neg hb] at h
      by_cases hr : ((rowsOf g p).getD c []).getD 0 0 = 0 ∨
          ((rowsOf g p).getD c []).getD 0 0 = b + 1
      · exact hr
      · rw [if_neg hr] at h; exact absurd h (by simp)

lemma insert_col_preserves (g : AzulGame) (p : Player) (t d c : Nat) (hc5 : c < 5)
    (hfirst : ((rowsOf g p).getD c []).getD 0 0 = 0 ∨ ((rowsOf g p).getD c []).getD 0 0 = t + 1)
    (h1 : RowsOk g.rows_p1) (h2 : RowsOk g.rows_p2) :
    RowsOk (insert_tiles_in_column g t d c p).rows_p1 ∧
    RowsOk (insert_tiles_in_column g t d c p).rows_p2 := by
  have hne : c ≠ 5 := by omega
  unfold insert_tiles_in_column
  rw [if_neg hne]
  dsimp only
  cases p
  · simp only [insert_pen_rows_p1, insert_pen_rows_p2, rowsOf_P1] at *
    refine ⟨?_, by simpa using h2⟩
    simp only [setRowsOf_p1_self]
    refine RowsOk_set _ _ _ h1 hc5 ?_ ?_
    · rw [fill_row_length]; exact (h1.2 c hc5).1
    · exact fill_row_rowOk t d _ (h1.2 c hc5).2 hfirst
  · simp only [insert_pen_rows_p1, insert_pen_rows_p2, rowsOf_P2] at *
    refine ⟨by simpa using h1, ?_⟩
    simp only [setRowsOf_p2_self]
    refine RowsOk_set _ _ _ h2 hc5 ?_ ?_
    · rw [fill_row_length]; exact (h2.2 c hc5).1
    · exact fill_row_rowOk t d _ (h2.2 c hc5).2 hfirst

lemma play_turn_preserves_RowsOk (g : AzulGame) (p : Player) (a b c : Nat) (hc : c ≤ 5)
    (h1 : RowsOk g.rows_p1) (h2 : RowsOk g.rows_p2) :
    RowsOk (play_turn g p a b c).1.rows_p1 ∧ RowsOk (play_turn g p a b c).1.rows_p2 := by
  unfold play_turn
  dsimp only
  split
  case isFalse => exact ⟨h1, h2⟩
  case isTrue hv =>
    set g1 := (take_tile_from_pit { g with penality_for_action := 0 } a b p).1 with hg1
    set g2 := if a = 5 ∧ g1.new_first_player then
        insert_tiles_in_penalty_column
          { g1 with initial_player := p, new_first_player := false } 1 p
      else g1 with hg2
    have hr1 : g2.rows_p1 = g.rows_p1 := by
      rw [hg2]; split <;> simp [hg1]
    have hr2 : g2.rows_p2 = g.rows_p2 := by
      rw [hg2]; split <;> simp [hg1]
    by_cases hc5 : c = 5
    · subst hc5
      rw [if_neg (by omega)]
      constructor <;> simp [hr1, hr2, h1, h2]
    · rw [if_pos hc5]
      have hclt : c < 5 := by omega
      have hfirst : ((rowsOf g2 p).getD c []).getD 0 0 = 0 ∨
          ((rowsOf g2 p).getD c []).getD 0 0 = b + 1 := by
        have hv' := valid_move_first_slot { g with penality_for_action := 0 } p a b c hc5 hv
        cases p
        · simpa [hr1] using hv'
        · simpa [hr2] using hv'
      have hg2_1 : RowsOk g2.rows_p1 := hr1 ▸ h1
      have hg2_2 : RowsOk g2.rows_p2 := hr2 ▸ h2
      exact ⟨(insert_col_preserves g2 p b _ c hclt hfirst hg2_1 hg2_2).1,
             (insert_col_preserves g2 p b _ c hclt hfirst hg2_1 hg2_2).2⟩

lemma score_row_step_preserves (g : AzulGame) (p : Player) (i : Nat) (hi : i < 5)
    (h1 : RowsOk g.rows_p1) (h2 : RowsOk g.rows_p2) :
    RowsOk (score_row_step g p i).rows_p1 ∧ RowsOk (score_row_step g p i).rows_p2 := by
  unfold score_row_step
  dsimp only
  split
  · cases p
    · constructor
      · simp only [update_score_rows_p1, add_tile_rows_p1, clear_row_rows_p1_self]
        refine RowsOk_set _ _ _ h1 hi ?_ ?_
        · rw [clear_loop_full _ _ (h1.2 i hi).1]; simp
        · rw [clear_loop_full _ _ (h1.2 i hi).1]; exact rowOk_zeros _
      · simp only [update_score_rows_p2, add_tile_rows_p2, clear_row_rows_p2_of_p1]; exact h2
    · constructor
      · simp only [update_score_rows_p1, add_tile_rows_p1, clear_row_rows_p1_of_p2]; exact h1
      · simp only [update_score_rows_p2, add_tile_rows_p2, clear_row_rows_p2_self]
        refine RowsOk_set _ _ _ h2 hi ?_ ?_
        · rw [clear_loop_full _ _ (h2.2 i hi).1]; simp
        · rw [clear_loop_full _ _ (h2.2 i hi).1]; exact rowOk_zeros _
  · exact ⟨h1, h2⟩

lemma calculate_score_preserves (g : AzulGame) (p : Player)
    (h1 : RowsOk g.rows_p1) (h2 : RowsOk g.rows_p2) :
    RowsOk (calculate_score g p).rows_p1 ∧ RowsOk (calculate_score g p).rows_p2 := by
  unfold calculate_score
  rw [range_five]
  simp only [List.foldl_cons, List.foldl_nil]
  have s0 := score_row_step_preserves g p 0 (by omega) h1 h2
  have s1 := score_row_step_preserves _ p 1 (by omega) s0.1 s0.2
  have s2 := score_row_step_preserves _ p 2 (by omega) s1.1 s1.2
  have s3 := score_row_step_preserves _ p 3 (by omega) s2.1 s2.2
  have s4 := score_row_step_preserves _ p 4 (by omega) s3.1 s3.2
  exact ⟨by simpa using s4.1, by simpa using s4.2⟩

lemma step_preserves_RowsOk (g : AzulGame) (a : Nat) (ha : a < 180)
    (h1 : RowsOk g.rows_p1) (h2 : RowsOk g.rows_p2) :
    RowsOk (step g a).1.rows_p1 ∧ RowsOk (step g a).1.rows_p2 := by
  have hc : (from_action_to_tuple_action a).2.2 ≤ 5 := by
    unfold from_action_to_tuple_action
    split_ifs <;> dsimp only <;> omega
  unfold step
  dsimp only
  have hpt := play_turn_preserves_RowsOk g g.player_turn (from_action_to_tuple_action a).1
    (from_action_to_tuple_action a).2.1 (from_action_to_tuple_action a).2.2 hc h1 h2
  have hG1 : RowsOk (is_game_done (is_turn_done (play_turn g g.player_turn
      (from_action_to_tuple_action a).1 (from_action_to_tuple_action a).2.1
      (from_action_to_tuple_action a).2.2).1)).rows_p1 := by
    simpa using hpt.1
  have hG2 : RowsOk (is_game_done (is_turn_done (play_turn g g.player_turn
      (from_action_to_tuple_action a).1 (from_action_to_tuple_action a).2.1
      (from_action_to_tuple_action a).2.2).1)).rows_p2 := by
    simpa using hpt.2
  split
  · have hcs := calculate_score_preserves _ Player.P1 hG1 hG2
    have hcs2 := calculate_score_preserves _ Player.P2 hcs.1 hcs.2
    split
    · exact ⟨by simpa using hcs2.1, by simpa using hcs2.2⟩
    · exact ⟨hcs2.1, hcs2.2⟩
  · exact ⟨hG1, hG2⟩

/-- Claim C10: in every reachable state each staging row of both players
is a contiguous left-to-right prefix of one non-empty stored value
followed by empty slots (so slot 0 empty means the row is empty, and all
occupied slots share one color), with the fixed capacities 1..5. -/
theorem staging_rows_prefix_uniform :
    ∀ g : AzulGame, Reachable g → RowsOk g.rows_p1 ∧ RowsOk g.rows_p2 := by
  intro g hg
  induction hg with
  | init factories =>
    have hinit : RowsOk init_rows := by
      refine ⟨rfl, ?_⟩
      intro i hi
      interval_cases i
      exacts [⟨rfl, rowOk_zeros 1⟩, ⟨rfl, rowOk_zeros 2⟩, ⟨rfl, rowOk_zeros 3⟩,
        ⟨rfl, rowOk_zeros 4⟩, ⟨rfl, rowOk_zeros 5⟩]
    exact ⟨hinit, hinit⟩
  | step g a _ ha ih => exact step_preserves_RowsOk g a ha ih.1 ih.2

/-- Witness for claim C10 at a concrete freshly initialized game. -/
theorem staging_rows_prefix_uniform_witness :
    RowsOk gLastTile.rows_p1 ∧ RowsOk gLastTile.rows_p2 :=
  staging_rows_prefix_uniform gLastTile
    (Reachable.init [[1, 0, 0, 0, 0], [0, 0, 0, 0, 0], [0, 0, 0, 0, 0], [0, 0, 0, 0, 0], [0, 0, 0, 0, 0]])
